import Mathlib

/-!
Verification of the Stonebox Unix resource limiter shim
(`src/src/utils/unixResourceLimiter.py`).

The single function `set_limits_and_exec` is shallowly embedded as a pure
Lean function from an abstract operating-system oracle (outcomes of
`resource.setrlimit` and `os.execvp`) and the process environment to
a final outcome (exit, process-image replacement, or uncaught Python
exception) together with an ordered trace of observable events
(successful limit calls, stderr lines, stdout lines, execvp invocations).

Supporting models:
* `envGet` / `envEraseKey` — the `os.environ` dictionary as an
  association list (first binding wins; erase removes every binding).
* `pyInt` — Python's `int(str)` for base 10 (whitespace stripping,
  optional sign, digits with single underscores between digits).
* `pyJsonLoads` — an executable model of `json.loads`: the standard JSON
  grammar plus the `NaN` / `Infinity` / `-Infinity` constants that
  CPython's decoder accepts; numbers are kept as lexemes because no
  downstream code consumes their numeric value.
* `pySubscript0` — Python's `x[0]` on the duck-typed value returned by
  `json.loads` (IndexError on empty sequences, TypeError on
  non-subscriptables, KeyError on dicts without key `0`).
-/

set_option maxHeartbeats 1000000

namespace Stonebox

/-! ## Environment model (`os.environ`) -/

/-- A process environment: an association list of variable/value pairs,
read with first-binding-wins semantics like a Python dict snapshot. -/
abbrev Env := List (String × String)

/-- `os.environ.get k`: the value of the first binding of `k`, if any. -/
def envGet : Env → String → Option String
  | [], _ => none
  | (k, v) :: rest, key => if k = key then some v else envGet rest key

/-- `del os.environ[k]` (dict deletion): remove every binding of `k`. -/
def envEraseKey : Env → String → Env
  | [], _ => []
  | (k, v) :: rest, key =>
    if k = key then envEraseKey rest key else (k, v) :: envEraseKey rest key

/-- `k in os.environ`. -/
def envMem (env : Env) (k : String) : Bool :=
  (envGet env k).isSome

/-! ## Python `int()` model -/

/-- Characters stripped by `int()` around the literal (ASCII whitespace). -/
def isPyWs (c : Char) : Bool :=
  c = ' ' || c = '\t' || c = '\n' || c = '\r' || c = '\x0b' || c = '\x0c'

/-- Decimal digits after the first, allowing a single `_` between digits. -/
def pyDigitsCore (acc : Nat) : List Char → Option Nat
  | [] => some acc
  | '_' :: c :: cs =>
    if c.isDigit then pyDigitsCore (acc * 10 + (c.toNat - 48)) cs else none
  | ['_'] => none
  | c :: cs =>
    if c.isDigit then pyDigitsCore (acc * 10 + (c.toNat - 48)) cs else none

/-- A run of decimal digits (must start with a digit). -/
def pyDigits : List Char → Option Nat
  | [] => none
  | c :: cs => if c.isDigit then pyDigitsCore (c.toNat - 48) cs else none

/-- Python `int(s)` with base 10: `some n` on success, `none` when the
call would raise `ValueError`. -/
def pyInt (s : String) : Option Int :=
  let core := (s.toList.dropWhile isPyWs).reverse.dropWhile isPyWs |>.reverse
  match core with
  | '-' :: rest => (pyDigits rest).map (fun n => -(n : Int))
  | '+' :: rest => (pyDigits rest).map (fun n => (n : Int))
  | cs => (pyDigits cs).map (fun n => (n : Int))

/-- The text of the `ValueError` raised by `int()` on a bad literal. -/
def pyIntErrMsg (s : String) : String :=
  "invalid literal for int() with base 10: " ++ s

/-! ## JSON values and the `json.loads` model -/

/-- The value space of `json.loads`. Numbers keep their source lexeme:
the shim never uses a number's numeric value, only its (non-)stringness. -/
inductive Json where
  | null
  | bool (b : Bool)
  | num (lexeme : String)
  | str (s : String)
  | arr (elems : List Json)
  | obj (fields : List (String × Json))

/-- JSON insignificant whitespace. -/
def jsonWs (c : Char) : Bool :=
  c = ' ' || c = '\t' || c = '\n' || c = '\r'

/-- Drop leading JSON whitespace. -/
def skipWs : List Char → List Char
  | [] => []
  | c :: cs => if jsonWs c then skipWs cs else c :: cs

/-- Value of a hexadecimal digit, if the character is one. -/
def hexVal (c : Char) : Option Nat :=
  if c.isDigit then some (c.toNat - 48)
  else if 'a' ≤ c && c ≤ 'f' then some (c.toNat - 87)
  else if 'A' ≤ c && c ≤ 'F' then some (c.toNat - 55)
  else none

/-- Parse the body of a JSON string after the opening quote, handling the
standard escapes; strict mode rejects raw control characters. -/
def jsonStringRest (acc : List Char) : List Char → Except String (String × List Char)
  | [] => .error "Unterminated string"
  | '"' :: cs => .ok (String.mk acc.reverse, cs)
  | '\\' :: cs =>
    match cs with
    | [] => .error "Unterminated string"
    | '"' :: cs2 => jsonStringRest ('"' :: acc) cs2
    | '\\' :: cs2 => jsonStringRest ('\\' :: acc) cs2
    | '/' :: cs2 => jsonStringRest ('/' :: acc) cs2
    | 'b' :: cs2 => jsonStringRest ('\x08' :: acc) cs2
    | 'f' :: cs2 => jsonStringRest ('\x0c' :: acc) cs2
    | 'n' :: cs2 => jsonStringRest ('\n' :: acc) cs2
    | 'r' :: cs2 => jsonStringRest ('\r' :: acc) cs2
    | 't' :: cs2 => jsonStringRest ('\t' :: acc) cs2
    | 'u' :: a :: b :: c :: d :: cs2 =>
      match hexVal a, hexVal b, hexVal c, hexVal d with
      | some ha, some hb, some hc, some hd =>
        let n := ((ha * 16 + hb) * 16 + hc) * 16 + hd
        jsonStringRest (Char.ofNat n :: acc) cs2
      | _, _, _, _ => .error "Invalid unicode escape"
    | _ :: _ => .error "Invalid escape"
  | c :: cs =>
    if c.toNat < 32 then .error "Invalid control character"
    else jsonStringRest (c :: acc) cs

/-- Take a maximal run of decimal digits. -/
def takeDigits : List Char → List Char × List Char
  | [] => ([], [])
  | c :: cs =>
    if c.isDigit then
      let (d, r) := takeDigits cs
      (c :: d, r)
    else ([], c :: cs)

/-- The integer part of a JSON number: `0` or a nonzero digit followed by
digits (matching the decoder's `(?:0|[1-9]\d*)`). -/
def lexIntPart : List Char → Option (List Char × List Char)
  | [] => none
  | '0' :: cs => some (['0'], cs)
  | c :: cs =>
    if c.isDigit then
      let (d, r) := takeDigits cs
      some (c :: d, r)
    else none

/-- Optional fraction `(\.\d+)?`. -/
def lexFrac (cs : List Char) : List Char × List Char :=
  match cs with
  | '.' :: c :: rest =>
    if c.isDigit then
      let (d, r) := takeDigits rest
      ('.' :: c :: d, r)
    else ([], cs)
  | _ => ([], cs)

/-- Optional exponent `([eE][-+]?\d+)?`. -/
def lexExp (cs : List Char) : List Char × List Char :=
  match cs with
  | [] => ([], [])
  | e :: rest =>
    if e = 'e' || e = 'E' then
      let (signPart, rest2) :=
        match rest with
        | s :: r2 => if s = '+' || s = '-' then ([s], r2) else (([] : List Char), rest)
        | [] => ([], [])
      match rest2 with
      | c :: r3 =>
        if c.isDigit then
          let (d, r4) := takeDigits r3
          (e :: (signPart ++ c :: d), r4)
        else ([], e :: rest)
      | [] => ([], e :: rest)
    else ([], e :: rest)

/-- Lex a JSON number starting at the head of `cs`. -/
def lexNumber (cs : List Char) : Option (String × List Char) :=
  match cs with
  | '-' :: rest =>
    match lexIntPart rest with
    | some (ip, r) =>
      let (f, r2) := lexFrac r
      let (ex, r3) := lexExp r2
      some (String.mk ('-' :: (ip ++ f ++ ex)), r3)
    | none => none
  | _ =>
    match lexIntPart cs with
    | some (ip, r) =>
      let (f, r2) := lexFrac r
      let (ex, r3) := lexExp r2
      some (String.mk (ip ++ f ++ ex), r3)
    | none => none

/-- The character `0x7b` (opening curly bracket). -/
def openBrace : Char := Char.ofNat 123

/-- The character `0x7d` (closing curly bracket). -/
def closeBrace : Char := Char.ofNat 125

mutual

/-- Parse one JSON value at the head of the input (no leading whitespace).
`fuel` bounds recursion depth; `pyJsonLoads` supplies enough for any input. -/
def jsonValue : Nat → List Char → Except String (Json × List Char)
  | 0, _ => .error "Too deeply nested"
  | fuel + 1, cs =>
    match cs with
    | [] => .error "Expecting value"
    | 'n' :: 'u' :: 'l' :: 'l' :: r => .ok (.null, r)
    | 't' :: 'r' :: 'u' :: 'e' :: r => .ok (.bool true, r)
    | 'f' :: 'a' :: 'l' :: 's' :: 'e' :: r => .ok (.bool false, r)
    | 'N' :: 'a' :: 'N' :: r => .ok (.num "NaN", r)
    | 'I' :: 'n' :: 'f' :: 'i' :: 'n' :: 'i' :: 't' :: 'y' :: r =>
      .ok (.num "Infinity", r)
    | '-' :: 'I' :: 'n' :: 'f' :: 'i' :: 'n' :: 'i' :: 't' :: 'y' :: r =>
      .ok (.num "-Infinity", r)
    | '"' :: r =>
      match jsonStringRest [] r with
      | .ok (s, r2) => .ok (.str s, r2)
      | .error e => .error e
    | '[' :: r =>
      match skipWs r with
      | ']' :: r2 => .ok (.arr [], r2)
      | r2 => jsonElems fuel [] r2
    | c :: r =>
      if c = openBrace then
        match skipWs r with
        | [] => .error "Expecting property name"
        | b :: r2 =>
          if b = closeBrace then .ok (.obj [], r2)
          else jsonMembers fuel [] (b :: r2)
      else
        match lexNumber (c :: r) with
        | some (lx, r2) => .ok (.num lx, r2)
        | none => .error "Expecting value"

/-- Parse the remaining comma-separated elements of a non-empty array. -/
def jsonElems : Nat → List Json → List Char → Except String (Json × List Char)
  | 0, _, _ => .error "Too deeply nested"
  | fuel + 1, acc, cs =>
    match jsonValue fuel cs with
    | .error e => .error e
    | .ok (v, r) =>
      match skipWs r with
      | ',' :: r2 => jsonElems fuel (v :: acc) (skipWs r2)
      | ']' :: r2 => .ok (.arr (v :: acc).reverse, r2)
      | _ => .error "Expecting comma delimiter"

/-- Parse the remaining members of a non-empty object. -/
def jsonMembers : Nat → List (String × Json) → List Char →
    Except String (Json × List Char)
  | 0, _, _ => .error "Too deeply nested"
  | fuel + 1, acc, cs =>
    match cs with
    | '"' :: r =>
      match jsonStringRest [] r with
      | .error e => .error e
      | .ok (key, r2) =>
        match skipWs r2 with
        | ':' :: r3 =>
          match jsonValue fuel (skipWs r3) with
          | .error e => .error e
          | .ok (v, r4) =>
            match skipWs r4 with
            | ',' :: r5 => jsonMembers fuel ((key, v) :: acc) (skipWs r5)
            | b :: r5 =>
              if b = closeBrace then .ok (.obj ((key, v) :: acc).reverse, r5)
              else .error "Expecting comma delimiter"
            | [] => .error "Expecting comma delimiter"
        | _ => .error "Expecting colon delimiter"
    | _ => .error "Expecting property name"

end

/-- `json.loads`: parse with enough fuel, then require only whitespace
after the value (`Extra data` otherwise); `some` result is the value,
`error` models `json.JSONDecodeError`. -/
def pyJsonLoads (s : String) : Except String Json :=
  match jsonValue (2 * s.length + 2) (skipWs s.toList) with
  | .error e => .error e
  | .ok (v, rest) =>
    match skipWs rest with
    | [] => .ok v
    | _ => .error "Extra data"

/-- Python `x[0]` on a decoded JSON value: `ok` the element, or `error`
the name of the exception the subscript raises (never caught by the shim). -/
def pySubscript0 : Json → Except String Json
  | .arr [] => .error "IndexError"
  | .arr (x :: _) => .ok x
  | .str s =>
    match s.toList with
    | [] => .error "IndexError"
    | c :: _ => .ok (.str (String.mk [c]))
  | .obj _ => .error "KeyError"
  | .null => .error "TypeError"
  | .bool _ => .error "TypeError"
  | .num _ => .error "TypeError"

/-- All-strings view of a decoded JSON list (the shape `os.execvp` needs
for its argument vector). -/
def asStringList : List Json → Option (List String)
  | [] => some []
  | .str s :: rest => (asStringList rest).map (fun l => s :: l)
  | _ :: _ => none

/-- Python `str()` of a decoded JSON value, used only inside diagnostic
text (container renderings abbreviated). -/
def pyStrOfJson : Json → String
  | .str s => s
  | .num lx => lx
  | .bool true => "True"
  | .bool false => "False"
  | .null => "None"
  | .arr _ => "[...]"
  | .obj _ => "\x7b...\x7d"

/-! ## Operating-system oracle and observable behavior -/

/-- The two resource categories the shim touches. -/
inductive RLimitRes where
  | RLIMIT_AS
  | RLIMIT_NPROC
deriving DecidableEq

/-- Result of one `os.execvp` invocation, decided by the operating system:
the call does not return on success, raises `FileNotFoundError` when the
program cannot be located, or raises some other `OSError`. -/
inductive ExecResult where
  | success
  | fileNotFound
  | osError (msg : String)
deriving DecidableEq

/-- Abstract operating system: outcomes of `resource.setrlimit`
(`none` = success, `some msg` = the exception text raised) and of
`os.execvp` on a well-typed program/argument-vector pair. -/
structure OS where
  setrlimitResult : RLimitRes → Int → Int → Option String
  execvpResult : String → List String → ExecResult

/-- Observable events, in program order: a successful `setrlimit`
(recording the soft and hard bounds installed), a line printed to
`sys.stderr`, a line printed to `sys.stdout`, and an `os.execvp`
invocation that reached the operating system. -/
inductive Event where
  | setRLimit (res : RLimitRes) (soft hard : Int)
  | stderrLine (line : String)
  | stdoutLine (line : String)
  | execvpCall (prog : String) (argv : List String)
deriving DecidableEq

/-- How the shim's own code path ends: `sys.exit(code)`, replacement of
the process image (carrying the program, argument vector, and the
environment the new image inherits), or an uncaught Python exception
(interpreter aborts with a traceback, exit status 1). -/
inductive Outcome where
  | exited (code : Nat)
  | execed (prog : String) (argv : List String) (env : Env)
  | uncaught (exc : String)
deriving DecidableEq

/-! ## The shim, step by step (`set_limits_and_exec`, lines 6–50) -/

/-- Lines 11–16: the `STONEBOX_MEMORY_LIMIT_MB` block. Python truthiness
skips both an absent and an empty value; `int()` failure and `setrlimit`
failure are both caught and logged; success emits the limit event with
soft = hard = `value * 1024 * 1024`. -/
def memoryLimitStep (os : OS) (memory_limit_mb_str : Option String) : List Event :=
  match memory_limit_mb_str with
  | none => []
  | some s =>
    if s = "" then []
    else
      match pyInt s with
      | none =>
        [.stderrLine ("Stonebox Unix Limiter: Failed to set memory limit: " ++
          pyIntErrMsg s)]
      | some n =>
        let memory_limit_bytes := n * 1024 * 1024
        match os.setrlimitResult .RLIMIT_AS memory_limit_bytes memory_limit_bytes with
        | none => [.setRLimit .RLIMIT_AS memory_limit_bytes memory_limit_bytes]
        | some e =>
          [.stderrLine ("Stonebox Unix Limiter: Failed to set memory limit: " ++ e)]

/-- Lines 18–23: the `STONEBOX_PROCESS_LIMIT` block, same policy with
`RLIMIT_NPROC` and soft = hard = the parsed value. -/
def processLimitStep (os : OS) (process_limit_str : Option String) : List Event :=
  match process_limit_str with
  | none => []
  | some s =>
    if s = "" then []
    else
      match pyInt s with
      | none =>
        [.stderrLine ("Stonebox Unix Limiter: Failed to set process limit: " ++
          pyIntErrMsg s)]
      | some n =>
        match os.setrlimitResult .RLIMIT_NPROC n n with
        | none => [.setRLimit .RLIMIT_NPROC n n]
        | some e =>
          [.stderrLine ("Stonebox Unix Limiter: Failed to set process limit: " ++ e)]

/-- Lines 39–41: delete the three `STONEBOX_*` keys from `os.environ`,
each deletion guarded by a membership test exactly as in the source. -/
def scrubEnv (env : Env) : Env :=
  let env1 := if envMem env "STONEBOX_MEMORY_LIMIT_MB"
    then envEraseKey env "STONEBOX_MEMORY_LIMIT_MB" else env
  let env2 := if envMem env1 "STONEBOX_PROCESS_LIMIT"
    then envEraseKey env1 "STONEBOX_PROCESS_LIMIT" else env1
  if envMem env2 "STONEBOX_EXEC_ARGS"
    then envEraseKey env2 "STONEBOX_EXEC_ARGS" else env2

/-- Lines 43–50: `os.execvp(actual_command, actual_args)` inside
`try/except`. When the command is a string and the argument vector a list
of strings, the operating system decides: success replaces the image
(with the scrubbed environment), `FileNotFoundError` maps to exit 127
with a "Command not found" line, any other `OSError` to exit 126. A
mis-shaped command or argument vector makes `os.execvp` raise `TypeError`
before reaching the OS, which the generic `except` also maps to 126. -/
def execvpStep (os : OS) (scrubbed : Env) (actual_command actual_args : Json) :
    Outcome × List Event :=
  match actual_command, actual_args with
  | .str prog, .arr elems =>
    match asStringList elems with
    | some argv =>
      match os.execvpResult prog argv with
      | .success => (.execed prog argv scrubbed, [.execvpCall prog argv])
      | .fileNotFound =>
        (.exited 127, [.execvpCall prog argv,
          .stderrLine ("Stonebox Unix Limiter: Command not found: " ++ prog)])
      | .osError e =>
        (.exited 126, [.execvpCall prog argv,
          .stderrLine ("Stonebox Unix Limiter: Failed to exec command " ++ prog ++
            ": " ++ e)])
    | none =>
      (.exited 126,
        [.stderrLine ("Stonebox Unix Limiter: Failed to exec command " ++ prog ++
          ": TypeError: argv must contain only strings")])
  | cmd, _ =>
    (.exited 126,
      [.stderrLine ("Stonebox Unix Limiter: Failed to exec command " ++
        pyStrOfJson cmd ++ ": TypeError: argv and command must be strings")])

/-- Lines 36–50: take element 0 of the parsed value (an uncaught
exception if the value has none), scrub the environment, then exec. -/
def subscriptPhase (os : OS) (env : Env) (command_parts : Json) :
    Outcome × List Event :=
  match pySubscript0 command_parts with
  | .error exc => (.uncaught exc, [])
  | .ok actual_command => execvpStep os (scrubEnv env) actual_command command_parts

/-- Lines 29–50: `json.loads` inside `try/except` (failure logs and exits
121) followed by the subscript/scrub/exec phase. -/
def parsePhase (os : OS) (env : Env) (s : String) : Outcome × List Event :=
  match pyJsonLoads s with
  | .error e =>
    (.exited 121,
      [.stderrLine ("Stonebox Unix Limiter: Failed to parse STONEBOX_EXEC_ARGS: " ++ e)])
  | .ok command_parts => subscriptPhase os env command_parts

/-- Lines 25–50: the required-variable check (`if not command_args_json`,
so both an absent and an empty value log and exit 120), then parsing. -/
def argvExecPhase (os : OS) (env : Env) : Outcome × List Event :=
  match envGet env "STONEBOX_EXEC_ARGS" with
  | none => (.exited 120, [.stderrLine "Stonebox Unix Limiter: STONEBOX_EXEC_ARGS not set."])
  | some s =>
    if s = "" then
      (.exited 120, [.stderrLine "Stonebox Unix Limiter: STONEBOX_EXEC_ARGS not set."])
    else parsePhase os env s

/-- Lines 6–50, `set_limits_and_exec` in full: the memory-limit block,
the process-limit block, then the argument/exec phase; the trace is the
concatenation of the three blocks' events in program order, and the final
outcome is the one produced by the argument/exec phase (the limit blocks
never terminate the process). -/
def set_limits_and_exec (os : OS) (env : Env) : Outcome × List Event :=
  ((argvExecPhase os env).1,
    memoryLimitStep os (envGet env "STONEBOX_MEMORY_LIMIT_MB") ++
      processLimitStep os (envGet env "STONEBOX_PROCESS_LIMIT") ++
      (argvExecPhase os env).2)

/-- An operating system on which every `setrlimit` and every `execvp`
succeeds. -/
def osAllOk : OS where
  setrlimitResult := fun _ _ _ => none
  execvpResult := fun _ _ => .success

/-- An operating system whose `execvp` always raises `FileNotFoundError`
(and whose `setrlimit` succeeds). -/
def osNotFound : OS where
  setrlimitResult := fun _ _ _ => none
  execvpResult := fun _ _ => .fileNotFound

/-- An operating system whose `execvp` always raises `PermissionError`
(and whose `setrlimit` succeeds). -/
def osPermDenied : OS where
  setrlimitResult := fun _ _ _ => none
  execvpResult := fun _ _ => .osError "Permission denied"

/-! ## Environment lemmas -/

theorem envGet_eraseKey (env : Env) (k k' : String) :
    envGet (envEraseKey env k) k' = if k' = k then none else envGet env k' := by
  induction env with
  | nil => simp [envGet, envEraseKey]
  | cons p rest ih =>
    obtain ⟨a, v⟩ := p
    by_cases hak : a = k
    · subst hak
      by_cases hk : k' = a
      · subst hk
        simp [envEraseKey, envGet, ih]
      · simp [envEraseKey, envGet, ih, hk, Ne.symm hk]
    · by_cases hk : k' = a
      · subst hk
        simp [envEraseKey, envGet, hak, ih]
      · simp [envEraseKey, envGet, hak, ih, Ne.symm hk]

theorem envGet_none_of_not_mem (env : Env) (k : String) (h : envMem env k = false) :
    envGet env k = none := by
  unfold envMem at h
  exact Option.not_isSome_iff_eq_none.mp (by simp [h])

theorem envGet_condErase (env : Env) (k k' : String) :
    envGet (if envMem env k then envEraseKey env k else env) k' =
      if k' = k then none else envGet env k' := by
  by_cases h : envMem env k
  · simp [h, envGet_eraseKey]
  · simp only [Bool.not_eq_true] at h
    simp only [h, if_neg Bool.false_ne_true]
    by_cases hk : k' = k
    · subst hk
      simp [envGet_none_of_not_mem env k' h]
    · simp [hk]

theorem scrubEnv_get (env : Env) (k : String) :
    envGet (scrubEnv env) k =
      if k = "STONEBOX_MEMORY_LIMIT_MB" ∨ k = "STONEBOX_PROCESS_LIMIT" ∨
          k = "STONEBOX_EXEC_ARGS" then none
      else envGet env k := by
  unfold scrubEnv
  rw [envGet_condErase, envGet_condErase, envGet_condErase]
  by_cases h1 : k = "STONEBOX_EXEC_ARGS" <;>
    by_cases h2 : k = "STONEBOX_PROCESS_LIMIT" <;>
      by_cases h3 : k = "STONEBOX_MEMORY_LIMIT_MB" <;>
        simp [h1, h2, h3]

theorem envEraseKey_of_get_none (env : Env) (k : String)
    (h : envGet env k = none) : envEraseKey env k = env := by
  induction env with
  | nil => rfl
  | cons p rest ih =>
    obtain ⟨a, v⟩ := p
    by_cases hak : a = k
    · subst hak
      simp [envGet] at h
    · simp [envGet, hak] at h
      simp [envEraseKey, hak, ih h]

theorem envEraseKey_idem (env : Env) (k : String) :
    envEraseKey (envEraseKey env k) k = envEraseKey env k := by
  apply envEraseKey_of_get_none
  simp [envGet_eraseKey]

/-! ## Event classification -/

/-- Events a limit-setting block may emit: a tagged stderr line or a
successful `setrlimit`. -/
def limitEvent : Event → Prop
  | .stderrLine m => ∃ t, m = "Stonebox Unix Limiter: " ++ t
  | .setRLimit _ _ _ => True
  | .stdoutLine _ => False
  | .execvpCall _ _ => False

/-- Events allowed on any path: anything but a stdout line, with every
stderr line carrying the `Stonebox Unix Limiter: ` tag. -/
def okEvent : Event → Prop
  | .stderrLine m => ∃ t, m = "Stonebox Unix Limiter: " ++ t
  | .stdoutLine _ => False
  | .setRLimit _ _ _ => True
  | .execvpCall _ _ => True

theorem okEvent_of_limitEvent (ev : Event) (h : limitEvent ev) : okEvent ev := by
  cases ev <;> simp_all [limitEvent, okEvent]

theorem tag_split (rest extra : String) :
    (("Stonebox Unix Limiter: " ++ rest) ++ extra) =
      "Stonebox Unix Limiter: " ++ (rest ++ extra) :=
  String.append_assoc _ _ _

theorem memoryLimitStep_events (os : OS) (v : Option String) (ev : Event)
    (h : ev ∈ memoryLimitStep os v) : limitEvent ev := by
  unfold memoryLimitStep at h
  rcases v with _ | s
  · simp at h
  · by_cases hs : s = ""
    · simp [hs] at h
    · simp only [hs, if_neg, ite_false] at h
      rcases hn : pyInt s with _ | n <;> simp only [hn] at h
      · simp at h
        subst h
        exact ⟨"Failed to set memory limit: " ++ pyIntErrMsg s,
          (tag_split "Failed to set memory limit: " (pyIntErrMsg s)).symm⟩
      · rcases hr : os.setrlimitResult .RLIMIT_AS (n * 1024 * 1024) (n * 1024 * 1024)
          with _ | e <;> simp only [hr] at h <;> simp at h <;> subst h
        · trivial
        · exact ⟨"Failed to set memory limit: " ++ e,
            (tag_split "Failed to set memory limit: " e).symm⟩

theorem processLimitStep_events (os : OS) (v : Option String) (ev : Event)
    (h : ev ∈ processLimitStep os v) : limitEvent ev := by
  unfold processLimitStep at h
  rcases v with _ | s
  · simp at h
  · by_cases hs : s = ""
    · simp [hs] at h
    · simp only [hs, if_neg, ite_false] at h
      rcases hn : pyInt s with _ | n <;> simp only [hn] at h
      · simp at h
        subst h
        exact ⟨"Failed to set process limit: " ++ pyIntErrMsg s,
          (tag_split "Failed to set process limit: " (pyIntErrMsg s)).symm⟩
      · rcases hr : os.setrlimitResult .RLIMIT_NPROC n n
          with _ | e <;> simp only [hr] at h <;> simp at h <;> subst h
        · trivial
        · exact ⟨"Failed to set process limit: " ++ e,
            (tag_split "Failed to set process limit: " e).symm⟩

theorem execFail_tagged (x : String) :
    ∃ t, ("Stonebox Unix Limiter: Failed to exec command " ++ x ++
        ": TypeError: argv and command must be strings") =
      "Stonebox Unix Limiter: " ++ t :=
  ⟨"Failed to exec command " ++ x ++ ": TypeError: argv and command must be strings",
    rfl⟩

theorem execvpStep_events (os : OS) (sc : Env) (cmd args : Json) (ev : Event)
    (h : ev ∈ (execvpStep os sc cmd args).2) : okEvent ev := by
  unfold execvpStep at h
  rcases cmd with _ | b | lx | prog | elems | fields
  case str =>
    rcases args with _ | b' | lx' | s' | elems' | fields'
    case arr =>
      rcases hsl : asStringList elems' with _ | argv <;> simp only [hsl] at h
      · simp at h
        subst h
        exact ⟨"Failed to exec command " ++ prog ++
          ": TypeError: argv must contain only strings", rfl⟩
      · rcases hr : os.execvpResult prog argv with _ | _ | e <;>
          simp only [hr] at h <;> simp at h
        · subst h
          trivial
        · rcases h with h | h <;> subst h
          · trivial
          · exact ⟨"Command not found: " ++ prog, rfl⟩
        · rcases h with h | h <;> subst h
          · trivial
          · exact ⟨"Failed to exec command " ++ prog ++ ": " ++ e, rfl⟩
    all_goals
      simp at h
      subst h
      exact execFail_tagged _
  all_goals
    simp at h
    subst h
    exact execFail_tagged _

theorem subscriptPhase_events (os : OS) (env : Env) (cp : Json) (ev : Event)
    (h : ev ∈ (subscriptPhase os env cp).2) : okEvent ev := by
  unfold subscriptPhase at h
  rcases hs : pySubscript0 cp with e | c <;> simp only [hs] at h
  · simp at h
  · exact execvpStep_events os (scrubEnv env) c cp ev h

theorem parsePhase_events (os : OS) (env : Env) (s : String) (ev : Event)
    (h : ev ∈ (parsePhase os env s).2) : okEvent ev := by
  unfold parsePhase at h
  rcases hp : pyJsonLoads s with e | v <;> simp only [hp] at h
  · simp at h
    subst h
    exact ⟨"Failed to parse STONEBOX_EXEC_ARGS: " ++ e, rfl⟩
  · exact subscriptPhase_events os env v ev h

theorem argvExecPhase_events (os : OS) (env : Env) (ev : Event)
    (h : ev ∈ (argvExecPhase os env).2) : okEvent ev := by
  unfold argvExecPhase at h
  rcases hg : envGet env "STONEBOX_EXEC_ARGS" with _ | s <;> simp only [hg] at h
  · simp at h
    subst h
    exact ⟨"STONEBOX_EXEC_ARGS not set.", rfl⟩
  · by_cases hs : s = ""
    · simp only [hs, if_pos] at h
      simp at h
      subst h
      exact ⟨"STONEBOX_EXEC_ARGS not set.", rfl⟩
    · simp only [hs, if_neg, ite_false] at h
      exact parsePhase_events os env s ev h

/-! ## Outcome chasing -/

theorem set_limits_and_exec_fst (os : OS) (env : Env) :
    (set_limits_and_exec os env).1 = (argvExecPhase os env).1 := rfl

theorem set_limits_and_exec_snd (os : OS) (env : Env) :
    (set_limits_and_exec os env).2 =
      memoryLimitStep os (envGet env "STONEBOX_MEMORY_LIMIT_MB") ++
        processLimitStep os (envGet env "STONEBOX_PROCESS_LIMIT") ++
        (argvExecPhase os env).2 := rfl

theorem execvpStep_execed (os : OS) (sc : Env) (cmd args : Json)
    (p : String) (a : List String) (e : Env)
    (h : (execvpStep os sc cmd args).1 = .execed p a e) : e = sc := by
  unfold execvpStep at h
  rcases cmd with _ | b | lx | prog | elems | fields <;>
    rcases args with _ | b' | lx' | s' | elems' | fields' <;>
      simp at h
  rcases hsl : asStringList elems' with _ | argv <;> simp only [hsl] at h
  · simp at h
  · rcases hr : os.execvpResult prog argv with _ | _ | e2 <;>
      simp only [hr] at h <;> simp at h
    exact h.2.2.symm

theorem argvExecPhase_execed (os : OS) (env : Env)
    (p : String) (a : List String) (e : Env)
    (h : (argvExecPhase os env).1 = .execed p a e) : e = scrubEnv env := by
  unfold argvExecPhase at h
  rcases hg : envGet env "STONEBOX_EXEC_ARGS" with _ | s <;> simp only [hg] at h
  · simp at h
  · by_cases hs : s = ""
    · simp [hs] at h
    · simp only [hs, if_neg, ite_false] at h
      unfold parsePhase at h
      rcases hp : pyJsonLoads s with e2 | v <;> simp only [hp] at h
      · simp at h
      · unfold subscriptPhase at h
        rcases hsub : pySubscript0 v with e3 | c <;> simp only [hsub] at h
        · simp at h
        · exact execvpStep_execed os (scrubEnv env) c v p a e h

theorem envEraseKey_comm (env : Env) (k1 k2 : String) :
    envEraseKey (envEraseKey env k1) k2 = envEraseKey (envEraseKey env k2) k1 := by
  induction env with
  | nil => rfl
  | cons p rest ih =>
    obtain ⟨a, v⟩ := p
    by_cases h1 : a = k1
    · subst h1
      by_cases h2 : a = k2
      · subst h2
        simp [envEraseKey, ih]
      · simp [envEraseKey, h2, ih]
    · by_cases h2 : a = k2
      · subst h2
        simp [envEraseKey, h1, ih]
      · simp [envEraseKey, h1, h2, ih]

theorem condErase_eq_erase (env : Env) (k : String) :
    (if envMem env k then envEraseKey env k else env) = envEraseKey env k := by
  by_cases h : envMem env k
  · simp [h]
  · simp only [Bool.not_eq_true] at h
    simp only [h, if_neg Bool.false_ne_true]
    exact (envEraseKey_of_get_none env k (envGet_none_of_not_mem env k h)).symm

theorem scrubEnv_eq (env : Env) :
    scrubEnv env =
      envEraseKey (envEraseKey (envEraseKey env "STONEBOX_MEMORY_LIMIT_MB")
        "STONEBOX_PROCESS_LIMIT") "STONEBOX_EXEC_ARGS" := by
  unfold scrubEnv
  rw [condErase_eq_erase, condErase_eq_erase, condErase_eq_erase]

theorem scrubEnv_eraseMem (env : Env) :
    scrubEnv (envEraseKey env "STONEBOX_MEMORY_LIMIT_MB") = scrubEnv env := by
  rw [scrubEnv_eq, scrubEnv_eq, envEraseKey_idem]

theorem scrubEnv_eraseProc (env : Env) :
    scrubEnv (envEraseKey env "STONEBOX_PROCESS_LIMIT") = scrubEnv env := by
  rw [scrubEnv_eq, scrubEnv_eq,
    envEraseKey_comm (envEraseKey env "STONEBOX_PROCESS_LIMIT")
      "STONEBOX_MEMORY_LIMIT_MB" "STONEBOX_PROCESS_LIMIT",
    envEraseKey_idem,
    envEraseKey_comm env "STONEBOX_PROCESS_LIMIT" "STONEBOX_MEMORY_LIMIT_MB"]

theorem execvpStep_osCongr (os os' : OS) (sc : Env) (cmd args : Json)
    (h : os.execvpResult = os'.execvpResult) :
    execvpStep os sc cmd args = execvpStep os' sc cmd args := by
  unfold execvpStep
  rw [h]

theorem argvExecPhase_congr (os os' : OS) (env env' : Env)
    (hos : os.execvpResult = os'.execvpResult)
    (h1 : envGet env "STONEBOX_EXEC_ARGS" = envGet env' "STONEBOX_EXEC_ARGS")
    (h2 : scrubEnv env = scrubEnv env') :
    argvExecPhase os env = argvExecPhase os' env' := by
  unfold argvExecPhase parsePhase subscriptPhase
  rw [h1, h2]
  rcases hg : envGet env' "STONEBOX_EXEC_ARGS" with _ | s
  · rfl
  · by_cases hs : s = ""
    · simp [hs]
    · simp only [if_neg hs]
      rcases hp : pyJsonLoads s with e | v <;> simp only [hp]
      rcases hsub : pySubscript0 v with e | c <;> simp only [hsub]
      exact execvpStep_osCongr os os' (scrubEnv env') c v hos

theorem asStringList_head (elems : List Json) (p : String) (rest : List String)
    (h : asStringList elems = some (p :: rest)) :
    ∃ tl, elems = Json.str p :: tl := by
  cases elems with
  | nil => simp [asStringList] at h
  | cons x tl =>
    cases x <;> simp [asStringList] at h
    case str s0 =>
      rcases htl : asStringList tl with _ | l <;> rw [htl] at h <;> simp at h
      exact ⟨tl, by rw [h.2]⟩

theorem asStringList_cons_ne_nil (x : Json) (xs : List Json) :
    asStringList (x :: xs) ≠ some [] := by
  cases x <;> simp [asStringList]

/-! ## Claim theorems -/

/-- C1: if `STONEBOX_EXEC_ARGS` is absent or set to the empty string,
`set_limits_and_exec` terminates the process with status code 120 after
writing a diagnostic naming the missing variable to the error stream, and
never invokes `os.execvp`. -/
theorem exec_args_missing_exit120 (os : OS) (env : Env)
    (h : envGet env "STONEBOX_EXEC_ARGS" = none ∨
      envGet env "STONEBOX_EXEC_ARGS" = some "") :
    (set_limits_and_exec os env).1 = .exited 120 ∧
    Event.stderrLine "Stonebox Unix Limiter: STONEBOX_EXEC_ARGS not set." ∈
      (set_limits_and_exec os env).2 ∧
    ∀ p a, Event.execvpCall p a ∉ (set_limits_and_exec os env).2 := by
  have hphase : argvExecPhase os env =
      (.exited 120,
        [.stderrLine "Stonebox Unix Limiter: STONEBOX_EXEC_ARGS not set."]) := by
    unfold argvExecPhase
    rcases h with h | h <;> simp [h]
  refine ⟨by rw [set_limits_and_exec_fst, hphase], ?_, ?_⟩
  · rw [set_limits_and_exec_snd, hphase]
    simp
  · intro p a hmem
    rw [set_limits_and_exec_snd] at hmem
    simp only [List.mem_append] at hmem
    rcases hmem with (hmem | hmem) | hmem
    · have := memoryLimitStep_events os _ _ hmem
      simp [limitEvent] at this
    · have := processLimitStep_events os _ _ hmem
      simp [limitEvent] at this
    · rw [hphase] at hmem
      simp at hmem

/-- Witness for C1 at a concrete input: an environment without
`STONEBOX_EXEC_ARGS`. -/
theorem exec_args_missing_exit120_witness :
    (set_limits_and_exec osAllOk [("PATH", "/bin")]).1 = .exited 120 ∧
    Event.stderrLine "Stonebox Unix Limiter: STONEBOX_EXEC_ARGS not set." ∈
      (set_limits_and_exec osAllOk [("PATH", "/bin")]).2 :=
  ⟨(exec_args_missing_exit120 osAllOk [("PATH", "/bin")] (Or.inl rfl)).1,
    (exec_args_missing_exit120 osAllOk [("PATH", "/bin")] (Or.inl rfl)).2.1⟩

/-- C2: a non-empty `STONEBOX_EXEC_ARGS` that fails to parse as JSON makes
`set_limits_and_exec` terminate with status code 121 after logging the
parse error to the error stream. -/
theorem exec_args_bad_json_exit121 (os : OS) (env : Env) (s e : String)
    (h1 : envGet env "STONEBOX_EXEC_ARGS" = some s) (h2 : s ≠ "")
    (h3 : pyJsonLoads s = .error e) :
    (set_limits_and_exec os env).1 = .exited 121 ∧
    Event.stderrLine
        ("Stonebox Unix Limiter: Failed to parse STONEBOX_EXEC_ARGS: " ++ e) ∈
      (set_limits_and_exec os env).2 := by
  have hphase : argvExecPhase os env =
      (.exited 121,
        [.stderrLine
          ("Stonebox Unix Limiter: Failed to parse STONEBOX_EXEC_ARGS: " ++ e)]) := by
    unfold argvExecPhase parsePhase
    simp [h1, h2, h3]
  exact ⟨by rw [set_limits_and_exec_fst, hphase],
    by rw [set_limits_and_exec_snd, hphase]; simp⟩

/-- Witness for C2 at a concrete input: `STONEBOX_EXEC_ARGS="not valid json"`. -/
theorem exec_args_bad_json_exit121_witness :
    (set_limits_and_exec osAllOk [("STONEBOX_EXEC_ARGS", "not valid json")]).1 =
      .exited 121 ∧
    Event.stderrLine
        ("Stonebox Unix Limiter: Failed to parse STONEBOX_EXEC_ARGS: " ++
          "Expecting value") ∈
      (set_limits_and_exec osAllOk [("STONEBOX_EXEC_ARGS", "not valid json")]).2 :=
  exec_args_bad_json_exit121 osAllOk [("STONEBOX_EXEC_ARGS", "not valid json")]
    "not valid json" "Expecting value" rfl (by decide) rfl

/-- C5: a parseable `STONEBOX_MEMORY_LIMIT_MB` value `n > 0` makes the shim
install the address-space limit with soft = hard = `n * 1024 * 1024` bytes
as the very first observable event, before everything else it does
(in particular before any exec). -/
theorem memory_limit_set_before_exec (os : OS) (env : Env) (s : String) (n : Int)
    (h1 : envGet env "STONEBOX_MEMORY_LIMIT_MB" = some s) (h2 : s ≠ "")
    (h3 : pyInt s = some n) (_h4 : 0 < n)
    (h5 : os.setrlimitResult .RLIMIT_AS (n * 1024 * 1024) (n * 1024 * 1024) = none) :
    (set_limits_and_exec os env).2 =
      Event.setRLimit .RLIMIT_AS (n * 1024 * 1024) (n * 1024 * 1024) ::
        (processLimitStep os (envGet env "STONEBOX_PROCESS_LIMIT") ++
          (argvExecPhase os env).2) := by
  rw [set_limits_and_exec_snd]
  have hm : memoryLimitStep os (envGet env "STONEBOX_MEMORY_LIMIT_MB") =
      [Event.setRLimit .RLIMIT_AS (n * 1024 * 1024) (n * 1024 * 1024)] := by
    unfold memoryLimitStep
    simp [h1, h2, h3, h5]
  rw [hm]
  rfl

/-- Witness for C5 at a concrete input: `STONEBOX_MEMORY_LIMIT_MB="16"`. -/
theorem memory_limit_set_before_exec_witness :
    (0 : Int) < 16 ∧
    (set_limits_and_exec osAllOk
        [("STONEBOX_MEMORY_LIMIT_MB", "16"), ("STONEBOX_EXEC_ARGS", "[\"x\"]")]).2 =
      Event.setRLimit .RLIMIT_AS (16 * 1024 * 1024) (16 * 1024 * 1024) ::
        (processLimitStep osAllOk
            (envGet [("STONEBOX_MEMORY_LIMIT_MB", "16"),
              ("STONEBOX_EXEC_ARGS", "[\"x\"]")] "STONEBOX_PROCESS_LIMIT") ++
          (argvExecPhase osAllOk
            [("STONEBOX_MEMORY_LIMIT_MB", "16"), ("STONEBOX_EXEC_ARGS", "[\"x\"]")]).2) :=
  ⟨by decide,
    memory_limit_set_before_exec osAllOk
      [("STONEBOX_MEMORY_LIMIT_MB", "16"), ("STONEBOX_EXEC_ARGS", "[\"x\"]")]
      "16" 16 rfl (by decide) rfl (by decide) rfl⟩

/-- C8: on every path, every event the shim emits is either a successful
limit call, an execvp invocation, or a stderr line carrying the
`Stonebox Unix Limiter: ` tag; it never writes to standard output. -/
theorem stderr_tagged_no_stdout (os : OS) (env : Env) (ev : Event)
    (h : ev ∈ (set_limits_and_exec os env).2) : okEvent ev := by
  rw [set_limits_and_exec_snd] at h
  simp only [List.mem_append] at h
  rcases h with (h | h) | h
  · exact okEvent_of_limitEvent ev (memoryLimitStep_events os _ ev h)
  · exact okEvent_of_limitEvent ev (processLimitStep_events os _ ev h)
  · exact argvExecPhase_events os env ev h

/-- Witness for C8 at a concrete input: the 120-diagnostic event of a run
with no `STONEBOX_EXEC_ARGS`. -/
theorem stderr_tagged_no_stdout_witness :
    okEvent (Event.stderrLine "Stonebox Unix Limiter: STONEBOX_EXEC_ARGS not set.") :=
  stderr_tagged_no_stdout osAllOk []
    (Event.stderrLine "Stonebox Unix Limiter: STONEBOX_EXEC_ARGS not set.")
    (by decide)

/-- C9: limit application precedes argument validation: with
`STONEBOX_MEMORY_LIMIT_MB="16"` the address-space limit call has already
succeeded both when the shim exits 120 (variable missing) and when it
exits 121 (unparseable JSON). -/
theorem limits_changed_before_validation_failure :
    ((set_limits_and_exec osAllOk [("STONEBOX_MEMORY_LIMIT_MB", "16")]).1 =
        .exited 120 ∧
      Event.setRLimit .RLIMIT_AS 16777216 16777216 ∈
        (set_limits_and_exec osAllOk [("STONEBOX_MEMORY_LIMIT_MB", "16")]).2) ∧
    ((set_limits_and_exec osAllOk
          [("STONEBOX_MEMORY_LIMIT_MB", "16"),
            ("STONEBOX_EXEC_ARGS", "not valid json")]).1 = .exited 121 ∧
      Event.setRLimit .RLIMIT_AS 16777216 16777216 ∈
        (set_limits_and_exec osAllOk
          [("STONEBOX_MEMORY_LIMIT_MB", "16"),
            ("STONEBOX_EXEC_ARGS", "not valid json")]).2) := by
  refine ⟨⟨?_, ?_⟩, ⟨?_, ?_⟩⟩ <;> decide

/-- C4: with a parsed all-strings argument vector, a `FileNotFoundError`
from `os.execvp` maps to exit 127 with a "Command not found" line, any
other `OSError` maps to exit 126 with the error logged, and the two codes
differ. -/
theorem exec_failure_codes (os : OS) (env : Env) (s : String)
    (elems : List Json) (prog : String) (argvRest : List String)
    (h1 : envGet env "STONEBOX_EXEC_ARGS" = some s) (h2 : s ≠ "")
    (h3 : pyJsonLoads s = .ok (.arr elems))
    (h4 : asStringList elems = some (prog :: argvRest)) :
    (os.execvpResult prog (prog :: argvRest) = .fileNotFound →
      (set_limits_and_exec os env).1 = .exited 127 ∧
      Event.stderrLine ("Stonebox Unix Limiter: Command not found: " ++ prog) ∈
        (set_limits_and_exec os env).2) ∧
    (∀ e, os.execvpResult prog (prog :: argvRest) = .osError e →
      (set_limits_and_exec os env).1 = .exited 126 ∧
      Event.stderrLine ("Stonebox Unix Limiter: Failed to exec command " ++
          prog ++ ": " ++ e) ∈ (set_limits_and_exec os env).2) ∧
    (127 : Nat) ≠ 126 := by
  obtain ⟨tl, rfl⟩ := asStringList_head elems prog argvRest h4
  have hphase : argvExecPhase os env =
      execvpStep os (scrubEnv env) (.str prog) (.arr (Json.str prog :: tl)) := by
    unfold argvExecPhase parsePhase subscriptPhase
    simp only [h1, if_neg h2, h3, pySubscript0]
  refine ⟨?_, ?_, by decide⟩
  · intro hf
    have hstep : execvpStep os (scrubEnv env) (.str prog) (.arr (Json.str prog :: tl)) =
        (.exited 127, [.execvpCall prog (prog :: argvRest),
          .stderrLine ("Stonebox Unix Limiter: Command not found: " ++ prog)]) := by
      unfold execvpStep
      simp only [h4, hf]
    refine ⟨by rw [set_limits_and_exec_fst, hphase, hstep], ?_⟩
    rw [set_limits_and_exec_snd, hphase, hstep]
    simp
  · intro e he
    have hstep : execvpStep os (scrubEnv env) (.str prog) (.arr (Json.str prog :: tl)) =
        (.exited 126, [.execvpCall prog (prog :: argvRest),
          .stderrLine ("Stonebox Unix Limiter: Failed to exec command " ++
            prog ++ ": " ++ e)]) := by
      unfold execvpStep
      simp only [h4, he]
    refine ⟨by rw [set_limits_and_exec_fst, hphase, hstep], ?_⟩
    rw [set_limits_and_exec_snd, hphase, hstep]
    simp

/-- Witness for C4 at a concrete input: `STONEBOX_EXEC_ARGS='["nosuch"]'`
on an OS whose `execvp` raises `FileNotFoundError`. -/
theorem exec_failure_codes_witness :
    (set_limits_and_exec osNotFound [("STONEBOX_EXEC_ARGS", "[\"nosuch\"]")]).1 =
      .exited 127 ∧
    Event.stderrLine ("Stonebox Unix Limiter: Command not found: " ++ "nosuch") ∈
      (set_limits_and_exec osNotFound [("STONEBOX_EXEC_ARGS", "[\"nosuch\"]")]).2 :=
  (exec_failure_codes osNotFound [("STONEBOX_EXEC_ARGS", "[\"nosuch\"]")]
    "[\"nosuch\"]" [Json.str "nosuch"] "nosuch" [] rfl (by decide) rfl rfl).1 rfl

/-- C6: limit-setting failures are non-fatal: the final outcome always
equals the argument/exec phase's outcome and never depends on the
`setrlimit` oracle, while each failing parse or failing `setrlimit` call
of either limit variable logs its diagnostic to the error stream. -/
theorem limit_failures_nonfatal (os : OS) (env : Env) :
    (set_limits_and_exec os env).1 = (argvExecPhase os env).1 ∧
    (∀ os2 : OS, os.execvpResult = os2.execvpResult →
      (set_limits_and_exec os env).1 = (set_limits_and_exec os2 env).1) ∧
    (∀ s, envGet env "STONEBOX_MEMORY_LIMIT_MB" = some s → s ≠ "" →
      pyInt s = none →
      Event.stderrLine ("Stonebox Unix Limiter: Failed to set memory limit: " ++
          pyIntErrMsg s) ∈ (set_limits_and_exec os env).2) ∧
    (∀ s n e, envGet env "STONEBOX_MEMORY_LIMIT_MB" = some s → s ≠ "" →
      pyInt s = some n →
      os.setrlimitResult .RLIMIT_AS (n * 1024 * 1024) (n * 1024 * 1024) = some e →
      Event.stderrLine ("Stonebox Unix Limiter: Failed to set memory limit: " ++ e)
        ∈ (set_limits_and_exec os env).2) ∧
    (∀ s, envGet env "STONEBOX_PROCESS_LIMIT" = some s → s ≠ "" →
      pyInt s = none →
      Event.stderrLine ("Stonebox Unix Limiter: Failed to set process limit: " ++
          pyIntErrMsg s) ∈ (set_limits_and_exec os env).2) ∧
    (∀ s n e, envGet env "STONEBOX_PROCESS_LIMIT" = some s → s ≠ "" →
      pyInt s = some n →
      os.setrlimitResult .RLIMIT_NPROC n n = some e →
      Event.stderrLine ("Stonebox Unix Limiter: Failed to set process limit: " ++ e)
        ∈ (set_limits_and_exec os env).2) := by
  refine ⟨rfl, ?_, ?_, ?_, ?_, ?_⟩
  · intro os2 hos
    rw [set_limits_and_exec_fst, set_limits_and_exec_fst]
    exact congrArg Prod.fst (argvExecPhase_congr os os2 env env hos rfl rfl)
  · intro s hg hs hp
    rw [set_limits_and_exec_snd]
    have hm : memoryLimitStep os (envGet env "STONEBOX_MEMORY_LIMIT_MB") =
        [Event.stderrLine ("Stonebox Unix Limiter: Failed to set memory limit: " ++
          pyIntErrMsg s)] := by
      unfold memoryLimitStep
      simp [hg, hs, hp]
    rw [hm]
    simp
  · intro s n e hg hs hp hr
    rw [set_limits_and_exec_snd]
    have hm : memoryLimitStep os (envGet env "STONEBOX_MEMORY_LIMIT_MB") =
        [Event.stderrLine
          ("Stonebox Unix Limiter: Failed to set memory limit: " ++ e)] := by
      unfold memoryLimitStep
      simp [hg, hs, hp, hr]
    rw [hm]
    simp
  · intro s hg hs hp
    rw [set_limits_and_exec_snd]
    have hm : processLimitStep os (envGet env "STONEBOX_PROCESS_LIMIT") =
        [Event.stderrLine ("Stonebox Unix Limiter: Failed to set process limit: " ++
          pyIntErrMsg s)] := by
      unfold processLimitStep
      simp [hg, hs, hp]
    rw [hm]
    simp
  · intro s n e hg hs hp hr
    rw [set_limits_and_exec_snd]
    have hm : processLimitStep os (envGet env "STONEBOX_PROCESS_LIMIT") =
        [Event.stderrLine
          ("Stonebox Unix Limiter: Failed to set process limit: " ++ e)] := by
      unfold processLimitStep
      simp [hg, hs, hp, hr]
    rw [hm]
    simp

/-- Witness for C6 at a concrete input:
`STONEBOX_MEMORY_LIMIT_MB="not_a_number"` logs its diagnostic. -/
theorem limit_failures_nonfatal_witness :
    Event.stderrLine ("Stonebox Unix Limiter: Failed to set memory limit: " ++
        pyIntErrMsg "not_a_number") ∈
      (set_limits_and_exec osAllOk
        [("STONEBOX_MEMORY_LIMIT_MB", "not_a_number"),
          ("STONEBOX_EXEC_ARGS", "[\"x\"]")]).2 :=
  (limit_failures_nonfatal osAllOk
      [("STONEBOX_MEMORY_LIMIT_MB", "not_a_number"),
        ("STONEBOX_EXEC_ARGS", "[\"x\"]")]).2.2.1
    "not_a_number" rfl (by decide) rfl

/-- C7: on the exec path the inherited environment is the original one
with exactly the three `STONEBOX_*` variables removed (whether or not they
were present) and every other variable untouched. -/
theorem scrub_env_on_exec (os : OS) (env : Env) (p : String) (a : List String)
    (e : Env) (h : (set_limits_and_exec os env).1 = .execed p a e) (k : String) :
    envGet e k =
      if k = "STONEBOX_MEMORY_LIMIT_MB" ∨ k = "STONEBOX_PROCESS_LIMIT" ∨
          k = "STONEBOX_EXEC_ARGS" then none
      else envGet env k := by
  rw [set_limits_and_exec_fst] at h
  have he := argvExecPhase_execed os env p a e h
  subst he
  exact scrubEnv_get env k

/-- Witness for C7 at a concrete input: a successful exec with one
unrelated variable and one `STONEBOX_*` variable present. -/
theorem scrub_env_on_exec_witness :
    envGet [("PATH", "/bin")] "STONEBOX_EXEC_ARGS" =
      (if "STONEBOX_EXEC_ARGS" = "STONEBOX_MEMORY_LIMIT_MB" ∨
          "STONEBOX_EXEC_ARGS" = "STONEBOX_PROCESS_LIMIT" ∨
          "STONEBOX_EXEC_ARGS" = "STONEBOX_EXEC_ARGS" then none
        else envGet [("STONEBOX_EXEC_ARGS", "[\"x\"]"), ("PATH", "/bin")]
          "STONEBOX_EXEC_ARGS") :=
  scrub_env_on_exec osAllOk [("STONEBOX_EXEC_ARGS", "[\"x\"]"), ("PATH", "/bin")]
    "x" ["x"] [("PATH", "/bin")] (by decide) "STONEBOX_EXEC_ARGS"

/-- C10: an empty-string limit variable is handled exactly like an absent
one: its block emits nothing (no limit call, no diagnostic) and the whole
run is identical to the run on the environment with the variable removed. -/
theorem empty_limit_var_treated_as_absent (os : OS) (env : Env) :
    (envGet env "STONEBOX_MEMORY_LIMIT_MB" = some "" →
      memoryLimitStep os (envGet env "STONEBOX_MEMORY_LIMIT_MB") = [] ∧
      set_limits_and_exec os env =
        set_limits_and_exec os (envEraseKey env "STONEBOX_MEMORY_LIMIT_MB")) ∧
    (envGet env "STONEBOX_PROCESS_LIMIT" = some "" →
      processLimitStep os (envGet env "STONEBOX_PROCESS_LIMIT") = [] ∧
      set_limits_and_exec os env =
        set_limits_and_exec os (envEraseKey env "STONEBOX_PROCESS_LIMIT")) := by
  constructor
  · intro hm
    have hstep : memoryLimitStep os (envGet env "STONEBOX_MEMORY_LIMIT_MB") = [] := by
      rw [hm]
      rfl
    have herase : envGet (envEraseKey env "STONEBOX_MEMORY_LIMIT_MB")
        "STONEBOX_MEMORY_LIMIT_MB" = none := by
      simp [envGet_eraseKey]
    have hproc : envGet (envEraseKey env "STONEBOX_MEMORY_LIMIT_MB")
        "STONEBOX_PROCESS_LIMIT" = envGet env "STONEBOX_PROCESS_LIMIT" := by
      rw [envGet_eraseKey, if_neg (by decide)]
    have hexec : envGet (envEraseKey env "STONEBOX_MEMORY_LIMIT_MB")
        "STONEBOX_EXEC_ARGS" = envGet env "STONEBOX_EXEC_ARGS" := by
      rw [envGet_eraseKey, if_neg (by decide)]
    have hph : argvExecPhase os env =
        argvExecPhase os (envEraseKey env "STONEBOX_MEMORY_LIMIT_MB") :=
      argvExecPhase_congr os os env (envEraseKey env "STONEBOX_MEMORY_LIMIT_MB")
        rfl hexec.symm (scrubEnv_eraseMem env).symm
    refine ⟨hstep, ?_⟩
    unfold set_limits_and_exec
    rw [hph, hstep, herase, hproc]
    rfl
  · intro hm
    have hstep : processLimitStep os (envGet env "STONEBOX_PROCESS_LIMIT") = [] := by
      rw [hm]
      rfl
    have herase : envGet (envEraseKey env "STONEBOX_PROCESS_LIMIT")
        "STONEBOX_PROCESS_LIMIT" = none := by
      simp [envGet_eraseKey]
    have hmem2 : envGet (envEraseKey env "STONEBOX_PROCESS_LIMIT")
        "STONEBOX_MEMORY_LIMIT_MB" = envGet env "STONEBOX_MEMORY_LIMIT_MB" := by
      rw [envGet_eraseKey, if_neg (by decide)]
    have hexec : envGet (envEraseKey env "STONEBOX_PROCESS_LIMIT")
        "STONEBOX_EXEC_ARGS" = envGet env "STONEBOX_EXEC_ARGS" := by
      rw [envGet_eraseKey, if_neg (by decide)]
    have hph : argvExecPhase os env =
        argvExecPhase os (envEraseKey env "STONEBOX_PROCESS_LIMIT") :=
      argvExecPhase_congr os os env (envEraseKey env "STONEBOX_PROCESS_LIMIT")
        rfl hexec.symm (scrubEnv_eraseProc env).symm
    refine ⟨hstep, ?_⟩
    unfold set_limits_and_exec
    rw [hph, hstep, herase, hmem2]
    rfl

/-- Witness for C10 at a concrete input: `STONEBOX_MEMORY_LIMIT_MB=""`. -/
theorem empty_limit_var_treated_as_absent_witness :
    memoryLimitStep osAllOk
        (envGet [("STONEBOX_MEMORY_LIMIT_MB", ""), ("STONEBOX_EXEC_ARGS", "[\"x\"]")]
          "STONEBOX_MEMORY_LIMIT_MB") = [] ∧
    set_limits_and_exec osAllOk
        [("STONEBOX_MEMORY_LIMIT_MB", ""), ("STONEBOX_EXEC_ARGS", "[\"x\"]")] =
      set_limits_and_exec osAllOk
        (envEraseKey [("STONEBOX_MEMORY_LIMIT_MB", ""), ("STONEBOX_EXEC_ARGS", "[\"x\"]")]
          "STONEBOX_MEMORY_LIMIT_MB") :=
  (empty_limit_var_treated_as_absent osAllOk
      [("STONEBOX_MEMORY_LIMIT_MB", ""), ("STONEBOX_EXEC_ARGS", "[\"x\"]")]).1 rfl

/-- C3 counterexample: `"[]"` is valid JSON whose shape is wrong (an empty
array), yet the shim does not exit 121: the unguarded `command_parts[0]`
raises an uncaught `IndexError`. -/
theorem wrong_shape_not_exit121_counterexample :
    pyJsonLoads "[]" = .ok (.arr []) ∧
    (set_limits_and_exec osAllOk [("STONEBOX_EXEC_ARGS", "[]")]).1 =
      .uncaught "IndexError" ∧
    (set_limits_and_exec osAllOk [("STONEBOX_EXEC_ARGS", "[]")]).1 ≠
      .exited 121 :=
  ⟨rfl, rfl, by decide⟩

/-- C3 amended: a decoded value that is not a non-empty array of strings is
never mapped to exit 121; when the value has no element 0 the interpreter
dies on the uncaught subscript exception, and otherwise the shape error
surfaces inside the exec `try` block and is mapped to exit 126. -/
theorem wrong_shape_uncaught_or_exit126 (os : OS) (env : Env) (s : String)
    (v : Json)
    (h1 : envGet env "STONEBOX_EXEC_ARGS" = some s) (h2 : s ≠ "")
    (h3 : pyJsonLoads s = .ok v)
    (h4 : ∀ elems prog rest, v = .arr elems →
      asStringList elems ≠ some (prog :: rest)) :
    (set_limits_and_exec os env).1 ≠ .exited 121 ∧
    ((∃ exc, pySubscript0 v = .error exc ∧
        (set_limits_and_exec os env).1 = .uncaught exc) ∨
      (set_limits_and_exec os env).1 = .exited 126) := by
  have hphase : (set_limits_and_exec os env).1 = (subscriptPhase os env v).1 := by
    rw [set_limits_and_exec_fst]
    unfold argvExecPhase parsePhase
    simp only [h1, if_neg h2, h3]
  rcases hsub : pySubscript0 v with exc | cmd
  · have houtcome : (set_limits_and_exec os env).1 = .uncaught exc := by
      rw [hphase]
      unfold subscriptPhase
      simp only [hsub]
    exact ⟨by rw [houtcome]; simp, Or.inl ⟨exc, rfl, houtcome⟩⟩
  · have houtcome : (set_limits_and_exec os env).1 = .exited 126 := by
      rw [hphase]
      unfold subscriptPhase
      simp only [hsub]
      rcases v with _ | b | lx | s0 | elems | fields <;>
        simp [pySubscript0] at hsub
      case str =>
        rcases hc : s0.data with _ | ⟨c, cs⟩ <;> rw [hc] at hsub <;>
          simp at hsub
        cases hsub
        rfl
      case arr =>
        rcases elems with _ | ⟨x, xs⟩
        · simp at hsub
        · simp at hsub
          cases hsub
          have hsl : asStringList (cmd :: xs) = none := by
            rcases hsl2 : asStringList (cmd :: xs) with _ | l
            · rfl
            · rcases l with _ | ⟨p, rest⟩
              · exact absurd hsl2 (asStringList_cons_ne_nil cmd xs)
              · exact absurd hsl2 (h4 (cmd :: xs) p rest rfl)
          rcases cmd with _ | b | lx | prog | elems2 | fields2 <;>
            unfold execvpStep
          case str =>
            simp only [hsl]
          all_goals rfl
    exact ⟨by rw [houtcome]; simp, Or.inr houtcome⟩

/-- Witness for the amended C3 at a concrete input:
`STONEBOX_EXEC_ARGS='[1,2]'` (an array of non-strings). -/
theorem wrong_shape_uncaught_or_exit126_witness :
    (set_limits_and_exec osAllOk [("STONEBOX_EXEC_ARGS", "[1,2]")]).1 ≠
      .exited 121 ∧
    ((∃ exc, pySubscript0 (.arr [.num "1", .num "2"]) = .error exc ∧
        (set_limits_and_exec osAllOk [("STONEBOX_EXEC_ARGS", "[1,2]")]).1 =
          .uncaught exc) ∨
      (set_limits_and_exec osAllOk [("STONEBOX_EXEC_ARGS", "[1,2]")]).1 =
        .exited 126) :=
  wrong_shape_uncaught_or_exit126 osAllOk [("STONEBOX_EXEC_ARGS", "[1,2]")]
    "[1,2]" (.arr [.num "1", .num "2"]) rfl (by decide) rfl
    (by
      intro elems prog rest he hsl
      cases he
      simp [asStringList] at hsl)

end Stonebox
